import Mathlib

/-!
Verification development for the emergent-narrative NPC simulation core
(`agent-story-creator`).  The Python sources are shallowly embedded:

* `float` values are modelled as exact rationals (`ℚ`); the one place the
  code takes a square root (L2 normalisation of intention vectors) is
  modelled over `ℝ`.
* numpy vectors are lists of rationals; elementwise operations are
  `List.zipWith`.
* Python dicts (insertion ordered) are association lists.
* the stdlib `heapq` priority queue is modelled by its contract: a list
  kept sorted by delivery time, with ties resolved in insertion order.
* fallible code returns `Except PyErr`; Python mutation is explicit
  state passing.
-/

namespace ASC

/-- Python exception kinds surfaced by the embedded code. -/
inductive PyErr where
  | keyError : PyErr
  | typeError : PyErr
  | attributeError : PyErr
  | valueError : PyErr
deriving DecidableEq

/-- Vectors (`np.ndarray` of dtype float32) as lists of rationals. -/
abbrev Vec := List ℚ

/-- The `np.clip(x, lo, hi)` for scalars. -/
def clampQ (lo hi x : ℚ) : ℚ := max lo (min hi x)

/-- Elementwise `np.clip(v, 0, 1)`. -/
def clamp01Vec (v : Vec) : Vec := v.map (clampQ 0 1)

/-- Elementwise vector addition (`a + b` on equal-length numpy arrays). -/
def addVec (a b : Vec) : Vec := List.zipWith (· + ·) a b

/-- Elementwise vector subtraction. -/
def subVec (a b : Vec) : Vec := List.zipWith (· - ·) a b

/-- Scalar times vector (`c * v`). -/
def scaleVec (c : ℚ) (v : Vec) : Vec := v.map (fun x => c * x)

/-- Dot product (`np.dot`, truncating at the shorter list). -/
def dotVec (a b : Vec) : ℚ := (List.zipWith (· * ·) a b).sum

/-- Sum of squares of the entries; `np.linalg.norm v` squared. -/
def l2normSq (v : Vec) : ℚ := (v.map (fun x => x * x)).sum

/-- Association-list lookup, `d.get(k, default)` on a Python dict. -/
def dictGet (d : List (String × ℚ)) (k : String) (dflt : ℚ) : ℚ :=
  match d.find? (fun p => p.1 = k) with
  | some p => p.2
  | none => dflt

/-- Python dict assignment `d[k] = v`: updates the value in place if the
key is present (keeping its position), otherwise appends. -/
def dictSet (d : List (String × ℚ)) (k : String) (v : ℚ) : List (String × ℚ) :=
  if d.any (fun p => p.1 = k) then
    d.map (fun p => if p.1 = k then (k, v) else p)
  else
    d ++ [(k, v)]

/-- Generic association-list lookup (Python `dict.get(k)` returning
`None` when absent). -/
def assocGet {α : Type} (d : List (String × α)) (k : String) : Option α :=
  match d.find? (fun p => p.1 = k) with
  | some p => some p.2
  | none => none

/-- Generic Python-dict assignment (update in place or append). -/
def assocSet {α : Type} (d : List (String × α)) (k : String) (v : α) :
    List (String × α) :=
  if d.any (fun p => p.1 = k) then
    d.map (fun p => if p.1 = k then (k, v) else p)
  else
    d ++ [(k, v)]

/-! ## Event model (`app/models/events.py`) -/

/-- The `LocalityScale(enum.IntEnum)`: concentric locality scales, ordered
from narrowest to broadest. -/
inductive LocalityScale where
  | PERSONAL : LocalityScale
  | FAMILY : LocalityScale
  | CITY : LocalityScale
  | REGIONAL : LocalityScale
  | NATIONAL : LocalityScale
  | GLOBAL : LocalityScale
deriving DecidableEq

/-- Numeric value of the `IntEnum` member. -/
def LocalityScale.toNat : LocalityScale → ℕ
  | .PERSONAL => 0
  | .FAMILY => 1
  | .CITY => 2
  | .REGIONAL => 3
  | .NATIONAL => 4
  | .GLOBAL => 5

/-- The `LocalityScale(self.current_scale + 1)`: the next broader scale.
Only evaluated by the source under `current_scale < GLOBAL`. -/
def LocalityScale.next : LocalityScale → LocalityScale
  | .PERSONAL => .FAMILY
  | .FAMILY => .CITY
  | .CITY => .REGIONAL
  | .REGIONAL => .NATIONAL
  | .NATIONAL => .GLOBAL
  | .GLOBAL => .GLOBAL

/-- The `PROPAGATION_RULES`: `(delay_in_game_hours, attenuation_factor)`
keyed by a scale pair. -/
def PROPAGATION_RULES (a b : LocalityScale) : Option (ℚ × ℚ) :=
  match a, b with
  | .PERSONAL, .FAMILY => some (1, 4/5)
  | .FAMILY, .CITY => some (4, 1/2)
  | .CITY, .REGIONAL => some (24, 3/10)
  | .REGIONAL, .NATIONAL => some (72, 3/20)
  | .NATIONAL, .GLOBAL => some (168, 1/20)
  | _, _ => none

/-- The `INTENSITY_THRESHOLD = 0.02`: events below this stop propagating. -/
def INTENSITY_THRESHOLD : ℚ := 1/50

/-- The `WorldEvent` dataclass. -/
structure WorldEvent where
  event_id : String := ""
  source_npc_id : Option String := none
  event_type : String := ""
  description : String := ""
  origin_scale : LocalityScale := .PERSONAL
  current_scale : LocalityScale := .PERSONAL
  location_id : String := "default"
  timestamp : ℚ := 0
  intensity : ℚ := 1
  emotion_impact : Vec := List.replicate 8 0
  social_impact : Vec := List.replicate 6 0
deriving DecidableEq

/-- The `WorldEvent.can_propagate`: intensity at least the threshold and
current scale strictly below `GLOBAL`. -/
def WorldEvent.can_propagate (e : WorldEvent) : Bool :=
  if e.intensity < INTENSITY_THRESHOLD then false
  else decide (e.current_scale.toNat < LocalityScale.GLOBAL.toNat)

/-- The `WorldEvent.next_propagation`: `(next_scale, delay_hours,
new_intensity)` or `None` when the cascade stops. -/
def WorldEvent.next_propagation (e : WorldEvent) :
    Option (LocalityScale × ℚ × ℚ) :=
  if e.can_propagate then
    let next_scale := e.current_scale.next
    match PROPAGATION_RULES e.current_scale next_scale with
    | none => none
    | some (delay, attenuation) =>
      let new_intensity := e.intensity * attenuation
      if new_intensity < INTENSITY_THRESHOLD then none
      else some (next_scale, delay, new_intensity)
  else none

/-! ## Event queue (`app/events/event_queue.py`)

The queue is Python's `heapq` over `_ScheduledEvent(delivery_time, event)`
records that compare on `delivery_time` only.  A binary min-heap is
modelled by its priority-queue contract: the pending entries kept sorted
by delivery time (insertion order among equal keys, which the source
leaves unspecified). -/

/-- The queue state: pending `(delivery_time, event)` pairs in
delivery-time order. -/
abbrev EventQueue := List (ℚ × WorldEvent)

/-- The `EventQueue.push`: schedule an event at `delivery_time`
(`heapq.heappush`). -/
def EventQueue.push (q : EventQueue) (e : WorldEvent) (t : ℚ) : EventQueue :=
  match q with
  | [] => [(t, e)]
  | (t0, e0) :: rest =>
    if t0 ≤ t then (t0, e0) :: EventQueue.push rest e t
    else (t, e) :: (t0, e0) :: rest

/-- The `EventQueue.pop_due`: pop while the smallest key is at most
`current_time`; returns the due events and the remaining queue. -/
def EventQueue.pop_due (q : EventQueue) (current_time : ℚ) :
    List WorldEvent × EventQueue :=
  match q with
  | [] => ([], [])
  | (t0, e0) :: rest =>
    if t0 ≤ current_time then
      let r := EventQueue.pop_due rest current_time
      (e0 :: r.1, r.2)
    else ([], (t0, e0) :: rest)

/-- The `EventQueue.peek_next_time`: the smallest delivery time, or `None`. -/
def EventQueue.peek_next_time (q : EventQueue) : Option ℚ :=
  match q with
  | [] => none
  | (t0, _) :: _ => some t0

/-! ## Event propagator (`app/events/propagation.py`) -/

/-- The scale factor applied to `emotion_impact` and `social_impact` of a
propagated copy: `new_intensity / max(current.intensity, 1e-8)`. -/
def impactRatio (new_intensity old_intensity : ℚ) : ℚ :=
  new_intensity / max old_intensity (1/100000000)

/-- Scale-increment fact needed for the cascade's termination. -/
theorem next_propagation_toNat {e : WorldEvent} {ns : LocalityScale}
    {d ni : ℚ} (h : e.next_propagation = some (ns, d, ni)) :
    ns = e.current_scale.next ∧ e.current_scale.toNat < 5 := by
  unfold WorldEvent.next_propagation at h
  by_cases hc : e.can_propagate
  · simp only [hc, if_true] at h
    rcases hr : PROPAGATION_RULES e.current_scale e.current_scale.next with
      _ | ⟨delay, att⟩
    · rw [hr] at h; simp at h
    · rw [hr] at h
      simp only at h
      by_cases hlt : e.intensity * att < INTENSITY_THRESHOLD
      · simp [hlt] at h
      · simp only [hlt, if_false, Option.some.injEq, Prod.mk.injEq] at h
        refine ⟨h.1.symm, ?_⟩
        unfold WorldEvent.can_propagate at hc
        by_cases hi : e.intensity < INTENSITY_THRESHOLD
        · simp [hi] at hc
        · simp only [hi, if_false, decide_eq_true_eq] at hc
          exact hc
  · simp [hc] at h

/-- Scale `next` strictly increases the numeric value below `GLOBAL`. -/
theorem LocalityScale.next_toNat {s : LocalityScale} (h : s.toNat < 5) :
    s.next.toNat = s.toNat + 1 := by
  cases s <;> simp [LocalityScale.next, LocalityScale.toNat] at h ⊢

/-- The propagated deep copy built inside the cascade loop: scale and
intensity replaced, impacts scaled by the intensity ratio, timestamp
delayed. -/
def propagatedCopy (current : WorldEvent) (next_scale : LocalityScale)
    (delay new_intensity : ℚ) : WorldEvent :=
  { current with
    current_scale := next_scale
    intensity := new_intensity
    emotion_impact :=
      current.emotion_impact.map
        (fun x => x * impactRatio new_intensity current.intensity)
    social_impact :=
      current.social_impact.map
        (fun x => x * impactRatio new_intensity current.intensity)
    timestamp := current.timestamp + delay }

/-- The `while True` cascade body of `EventPropagator.submit`: schedules
attenuated copies at each broader scale until `next_propagation` stops.
Returns the grown queue and the number of copies scheduled by the loop. -/
def cascade (current : WorldEvent) (q : EventQueue) : EventQueue × ℕ :=
  match h : current.next_propagation with
  | none => (q, 0)
  | some (next_scale, delay, new_intensity) =>
    let propagated := propagatedCopy current next_scale delay new_intensity
    let q1 := q.push propagated (current.timestamp + delay)
    let r := cascade propagated q1
    (r.1, r.2 + 1)
termination_by 6 - current.current_scale.toNat
decreasing_by
  have hn := next_propagation_toNat h
  simp only [propagatedCopy, hn.1, LocalityScale.next_toNat hn.2]
  omega

/-- The `EventPropagator.submit`: queue the event at its own timestamp, run
the cascade, and return the final queue with the delivery count
(including the original). -/
def EventPropagator.submit (e : WorldEvent) (q : EventQueue) :
    EventQueue × ℕ :=
  let q0 := q.push e e.timestamp
  let r := cascade e q0
  (r.1, r.2 + 1)

/-! ## NPC state (`app/models/npc_status.py`) -/

/-- The `INTENTION_DIM = 8`. -/
def INTENTION_DIM : ℕ := 8

/-- The `EMOTION_DIM = 8`. -/
def EMOTION_DIM : ℕ := 8

/-- The `PERSONALITY_DIM = 5`. -/
def PERSONALITY_DIM : ℕ := 5

/-- The `SOCIAL_INFLUENCE_DIM = 6`. -/
def SOCIAL_INFLUENCE_DIM : ℕ := 6

/-- The `ENVIRONMENT_DIM = 4`. -/
def ENVIRONMENT_DIM : ℕ := 4

/-- The `_zero_vec(dim)`. -/
def zero_vec (dim : ℕ) : Vec := List.replicate dim 0

/-- The `_uniform_vec(dim)`: all entries `1/dim`. -/
def uniform_vec (dim : ℕ) : Vec := List.replicate dim ((dim : ℚ)⁻¹)

/-- The `NPCVectorialStatus` dataclass.  `activityAttr` models the dynamic
Python attribute `activity`, which is not a dataclass field: it exists on
an instance only after some code (the schedule engine, which the world
manager never invokes) assigned it. -/
structure NPCVectorialStatus where
  npc_id : String := ""
  name : String := ""
  archetype : String := "generic"
  intention : Vec := uniform_vec INTENTION_DIM
  emotion : Vec := zero_vec EMOTION_DIM
  personality : Vec := uniform_vec PERSONALITY_DIM
  social_influence : Vec := zero_vec SOCIAL_INFLUENCE_DIM
  environment : Vec := zero_vec ENVIRONMENT_DIM
  energy : ℚ := 1
  health : ℚ := 1
  importance : ℚ := 1/2
  relationships : List (String × ℚ) := []
  recent_memories : List String := []
  location_id : String := "default"
  activityAttr : Option String := none
deriving DecidableEq

/-- The declared field names of the `NPCVectorialStatus` dataclass, in
source order (`activity` is not among them). -/
def npcDataclassFields : List String :=
  ["npc_id", "name", "archetype", "intention", "emotion", "personality",
   "social_influence", "environment", "energy", "health", "importance",
   "relationships", "recent_memories", "location_id"]

/-! ## Relationship engine (`app/simulation/relationship_engine.py`) -/

/-- The `RELATIONSHIP_DECAY_RATE = 0.01` (`app/config.py`). -/
def RELATIONSHIP_DECAY_RATE : ℚ := 1/100

/-- The `RELATIONSHIP_DELTA_SCALE = 1.0` (`app/config.py`). -/
def RELATIONSHIP_DELTA_SCALE : ℚ := 1

/-- The `_PRUNE_THRESHOLD = 0.01`. -/
def PRUNE_THRESHOLD : ℚ := 1/100

/-- The `RelationshipEngine` configuration. -/
structure RelationshipEngine where
  decay_rate : ℚ := RELATIONSHIP_DECAY_RATE
  delta_scale : ℚ := RELATIONSHIP_DELTA_SCALE

/-- The `RelationshipEngine.apply_delta`: update both NPCs' relationship
dicts with the damped, clamped delta.  Returns the two mutated NPCs. -/
def RelationshipEngine.apply_delta (eng : RelationshipEngine)
    (npc_a npc_b : NPCVectorialStatus) (delta : ℚ) :
    NPCVectorialStatus × NPCVectorialStatus :=
  let scaled := delta * eng.delta_scale
  let old_a := dictGet npc_a.relationships npc_b.npc_id 0
  let old_b := dictGet npc_b.relationships npc_a.npc_id 0
  let new_a := clampQ (-1) 1 (old_a + scaled * (1 - |old_a|))
  let new_b := clampQ (-1) 1 (old_b + scaled * (1 - |old_b|))
  ({ npc_a with relationships := dictSet npc_a.relationships npc_b.npc_id new_a },
   { npc_b with relationships := dictSet npc_b.relationships npc_a.npc_id new_b })

/-- The `RelationshipEngine.decay` on one NPC: multiply every affinity by
`1 - decay_rate`, dropping entries whose new absolute value is below the
prune threshold (dict order preserved). -/
def RelationshipEngine.decayNpc (eng : RelationshipEngine)
    (npc : NPCVectorialStatus) : NPCVectorialStatus :=
  { npc with
    relationships :=
      npc.relationships.filterMap (fun p =>
        let new_val := p.2 * (1 - eng.decay_rate)
        if |new_val| < PRUNE_THRESHOLD then none else some (p.1, new_val)) }

/-! ## Vitality engine (`app/simulation/vitality_engine.py`) -/

/-- Vitality configuration constants from `app/config.py`. -/
structure VitalityEngine where
  energy_drain : ℚ := 1/100
  energy_regen_base : ℚ := 3/100
  health_regen_rate : ℚ := 1/200
  danger_health_drain : ℚ := 1/50
  danger_safety_threshold : ℚ := 3/10
  health_energy_cap_threshold : ℚ := 1/2

/-- The `_DAMAGING_EVENT_TYPES`: event-type name starts mapped to
`(health_damage, energy_drain)` pairs, in source order. -/
def DAMAGING_EVENT_TYPES : List (String × ℚ × ℚ) :=
  [("attack", (-(15/100), -(5/100))),
   ("battle", (-(1/5), -(1/10))),
   ("disaster", (-(1/10), -(5/100))),
   ("plague", (-(12/100), -(3/100))),
   ("fire", (-(1/10), -(4/100))),
   ("collapse", (-(8/100), -(1/50)))]

/-- The `_HEALING_EVENT_TYPES`. -/
def HEALING_EVENT_TYPES : List (String × ℚ × ℚ) :=
  [("healing", (15/100, 5/100)),
   ("feast", (5/100, 15/100)),
   ("rest", (0, 1/5)),
   ("celebration", (1/50, 1/10))]

/-- The `VitalityEngine.compute_energy_regen`:
`energy_regen_base * (0.5*safety + 0.5*weather_comfort)`. -/
def VitalityEngine.compute_energy_regen (eng : VitalityEngine)
    (npc : NPCVectorialStatus) : ℚ :=
  let safety := npc.environment.getD 0 0
  let comfort := npc.environment.getD 2 0
  eng.energy_regen_base * (1/2 * safety + 1/2 * comfort)

/-- The `VitalityEngine.compute_health_change`: danger drain below the safety
threshold plus passive healing while below full health. -/
def VitalityEngine.compute_health_change (eng : VitalityEngine)
    (npc : NPCVectorialStatus) : ℚ :=
  let safety := npc.environment.getD 0 0
  let change : ℚ := 0
  let change :=
    if safety < eng.danger_safety_threshold then
      change - eng.danger_health_drain * (eng.danger_safety_threshold - safety)
    else change
  if npc.health < 1 then change + eng.health_regen_rate * safety else change

/-- The `VitalityEngine.apply_health_energy_cap`: when health is below the
threshold, energy is capped at `health / threshold`. -/
def VitalityEngine.apply_health_energy_cap (eng : VitalityEngine)
    (npc : NPCVectorialStatus) : NPCVectorialStatus :=
  if npc.health < eng.health_energy_cap_threshold then
    { npc with energy := min npc.energy (npc.health / eng.health_energy_cap_threshold) }
  else npc

/-- The `VitalityEngine.update_npc`: drain, regen, health change, clamp both
to `[0, 1]`, then the health-based energy cap. -/
def VitalityEngine.update_npc (eng : VitalityEngine)
    (npc : NPCVectorialStatus) : NPCVectorialStatus :=
  let npc := { npc with energy := npc.energy - eng.energy_drain }
  let npc := { npc with energy := npc.energy + eng.compute_energy_regen npc }
  let npc := { npc with health := npc.health + eng.compute_health_change npc }
  let npc := { npc with energy := clampQ 0 1 npc.energy }
  let npc := { npc with health := clampQ 0 1 npc.health }
  eng.apply_health_energy_cap npc

/-- The `VitalityEngine.apply_event`: the first matching damaging name start
applies its pair scaled by intensity (with clamping) and returns; else
the first matching healing name start does. -/
def VitalityEngine.apply_event (npc : NPCVectorialStatus)
    (event : WorldEvent) : NPCVectorialStatus :=
  match DAMAGING_EVENT_TYPES.find? (fun p => p.1.isPrefixOf event.event_type) with
  | some (_, health_delta, energy_delta) =>
    { npc with
      health := clampQ 0 1 (npc.health + health_delta * event.intensity)
      energy := clampQ 0 1 (npc.energy + energy_delta * event.intensity) }
  | none =>
    match HEALING_EVENT_TYPES.find? (fun p => p.1.isPrefixOf event.event_type) with
    | some (_, health_delta, energy_delta) =>
      { npc with
        health := clampQ 0 1 (npc.health + health_delta * event.intensity)
        energy := clampQ 0 1 (npc.energy + energy_delta * event.intensity) }
    | none => npc

/-- The `VitalityEngine.apply_interaction_costs` for one participant: deduct
the energy cost and apply the signed health delta, clamped. -/
def VitalityEngine.applyInteractionCost (npc : NPCVectorialStatus)
    (energy_cost health_delta : ℚ) : NPCVectorialStatus :=
  { npc with
    energy := clampQ 0 1 (npc.energy - energy_cost)
    health := clampQ 0 1 (npc.health + health_delta) }

/-- The `VitalityEngine.tick`: apply `update_npc` to every NPC. -/
def VitalityEngine.tick (eng : VitalityEngine)
    (npcs : List NPCVectorialStatus) : List NPCVectorialStatus :=
  npcs.map eng.update_npc

/-! ## Emotion engine (`app/simulation/emotion_engine.py`) -/

/-- The `PERSONALITY_TO_EMOTION_BASELINE`: fixed 5×8 matrix (rows =
personality, columns = emotion). -/
def PERSONALITY_TO_EMOTION_BASELINE : List Vec :=
  [[1/10, 0, 0, 0, 1/5, 0, 1/10, 3/10],
   [1/10, 0, 0, 0, 0, 0, 3/10, 1/10],
   [3/10, -(1/10), 0, -(1/10), 1/10, 0, 1/10, 1/10],
   [1/5, 0, -(1/5), 0, 0, -(1/10), 3/10, 0],
   [-(1/5), 3/10, 1/5, 3/10, 0, 1/10, -(1/5), 0]]

/-- Row-vector times matrix (`v @ M` with `M` a list of rows): the sum
of each coordinate of `v` scaling the matching row. -/
def vecMatMul (v : Vec) (rows : List Vec) (out_dim : ℕ) : Vec :=
  (List.zipWith (fun c row => scaleVec c row) v rows).foldl addVec
    (zero_vec out_dim)

/-- The `EmotionEngine` configuration. -/
structure EmotionEngine where
  decay_rate : ℚ := 1/20
  impact_scale : ℚ := 1

/-- The `EmotionEngine.compute_baseline`:
`clip(personality @ PERSONALITY_TO_EMOTION_BASELINE, 0, 1)`. -/
def EmotionEngine.compute_baseline (personality : Vec) : Vec :=
  clamp01Vec (vecMatMul personality PERSONALITY_TO_EMOTION_BASELINE EMOTION_DIM)

/-- The `EmotionEngine.decay`:
`clip(emotion + decay_rate * (baseline - emotion), 0, 1)`. -/
def EmotionEngine.decay (eng : EmotionEngine) (npc : NPCVectorialStatus) : Vec :=
  let baseline := EmotionEngine.compute_baseline npc.personality
  clamp01Vec (addVec npc.emotion (scaleVec eng.decay_rate (subVec baseline npc.emotion)))

/-- The `EmotionEngine.apply_event`:
`clip(emotion + emotion_impact * intensity * impact_scale, 0, 1)`. -/
def EmotionEngine.apply_event (eng : EmotionEngine) (npc : NPCVectorialStatus)
    (event : WorldEvent) : Vec :=
  clamp01Vec (addVec npc.emotion
    (scaleVec (event.intensity * eng.impact_scale) event.emotion_impact))

/-- The `EmotionEngine.tick`: decay every NPC's emotion in place. -/
def EmotionEngine.tick (eng : EmotionEngine)
    (npcs : List NPCVectorialStatus) : List NPCVectorialStatus :=
  npcs.map (fun npc => { npc with emotion := eng.decay npc })

/-- The `EmotionEngine.apply_event_batch`. -/
def EmotionEngine.apply_event_batch (eng : EmotionEngine)
    (npcs : List NPCVectorialStatus) (event : WorldEvent) :
    List NPCVectorialStatus :=
  npcs.map (fun npc => { npc with emotion := eng.apply_event npc event })

/-! ## Social influence engine (`app/simulation/social_engine.py`)

`SOCIAL_BLEND_RATE`, `SOCIAL_DECAY_RATE` and `SOCIAL_EVENT_SCALE` are
imported from `app/config.py` but absent from it in the source tree. -/

/-- Modelled from the spec: `SOCIAL_BLEND_RATE` is missing from
`app/config.py`; §4.11 gives default blend_rate 0.2. -/
def SOCIAL_BLEND_RATE : ℚ := 1/5

/-- Modelled from the spec: `SOCIAL_DECAY_RATE` is missing from
`app/config.py`; §4.11 gives default decay rate 0.05. -/
def SOCIAL_DECAY_RATE : ℚ := 1/20

/-- Modelled from the spec: `SOCIAL_EVENT_SCALE` is missing from
`app/config.py`; the spec lists the knob without a default, so the
multiplicative identity 1 is used. -/
def SOCIAL_EVENT_SCALE : ℚ := 1

/-- The `_ARCHETYPE_PROFILES`: per-archetype social radiation vectors. -/
def ARCHETYPE_PROFILES : List (String × Vec) :=
  [("merchant", [0, 2/5, 1/5, 1/10, 0, 0]),
   ("priest", [3/20, 0, 0, 0, 1/2, 1/10]),
   ("noble", [1/10, 0, 3/20, 2/5, 0, 3/10]),
   ("guard", [1/4, 0, 0, 1/10, 0, 1/5]),
   ("soldier", [1/5, 0, 0, 1/10, 0, 1/4]),
   ("artist", [0, 0, 2/5, 1/10, 0, 0]),
   ("bard", [1/10, 0, 7/20, 0, 0, 0]),
   ("farmer", [1/5, 1/10, 0, 0, 1/10, 0]),
   ("scholar", [1/10, 0, 0, 3/20, 0, 1/10]),
   ("criminal", [0, 1/5, 0, 3/20, 0, -(1/10)])]

/-- The `get_archetype_profile`: profile lookup, zero for unknown archetypes. -/
def get_archetype_profile (archetype : String) : Vec :=
  match ARCHETYPE_PROFILES.find? (fun p => p.1 = archetype) with
  | some p => p.2
  | none => zero_vec SOCIAL_INFLUENCE_DIM

/-- The `SocialInfluenceEngine` configuration. -/
structure SocialInfluenceEngine where
  blend_rate : ℚ := SOCIAL_BLEND_RATE
  decay_rate : ℚ := SOCIAL_DECAY_RATE
  event_scale : ℚ := SOCIAL_EVENT_SCALE

/-- The `compute_susceptibility`:
`clip(0.4 + 0.5*agreeableness - 0.15*neuroticism, 0.2, 1.0)`. -/
def SocialInfluenceEngine.compute_susceptibility
    (npc : NPCVectorialStatus) : ℚ :=
  let agreeableness := npc.personality.getD 3 0
  let neuroticism := npc.personality.getD 4 0
  clampQ (1/5) 1 (2/5 + 1/2 * agreeableness - 3/20 * neuroticism)

/-- The `compute_peer_signal`: relationship-weighted average of co-located
peers' radiated signals (own social influence plus archetype profile). -/
def SocialInfluenceEngine.compute_peer_signal (npc : NPCVectorialStatus)
    (co_located : List NPCVectorialStatus) : Vec :=
  let peers := co_located.filter (fun other => other.npc_id ≠ npc.npc_id)
  let weighted_sum :=
    peers.foldl (fun acc other =>
      let rel := dictGet npc.relationships other.npc_id 0
      let weight := 1/2 + rel * (1/2)
      let signal := addVec other.social_influence (get_archetype_profile other.archetype)
      addVec acc (scaleVec weight signal)) (zero_vec SOCIAL_INFLUENCE_DIM)
  if peers.length = 0 then zero_vec SOCIAL_INFLUENCE_DIM
  else scaleVec (peers.length : ℚ)⁻¹ weighted_sum

/-- The `SocialInfluenceEngine.apply_event`: shift the social vector by the
scaled impact unless the impact is all-zero. -/
def SocialInfluenceEngine.apply_event (eng : SocialInfluenceEngine)
    (npc : NPCVectorialStatus) (event : WorldEvent) : NPCVectorialStatus :=
  if event.social_impact.all (fun x => x = 0) then npc
  else
    { npc with
      social_influence :=
        clamp01Vec (addVec npc.social_influence
          (scaleVec (event.intensity * eng.event_scale) event.social_impact)) }

/-- The `SocialInfluenceEngine.apply_event_batch`. -/
def SocialInfluenceEngine.apply_event_batch (eng : SocialInfluenceEngine)
    (npcs : List NPCVectorialStatus) (event : WorldEvent) :
    List NPCVectorialStatus :=
  if event.social_impact.all (fun x => x = 0) then npcs
  else npcs.map (fun npc => eng.apply_event npc event)

/-- One NPC's update inside `SocialInfluenceEngine.tick`: blend toward
the peer signal at `blend_rate * susceptibility`, decay toward zero,
clamp to `[0, 1]`.  Only `social_influence` changes. -/
def SocialInfluenceEngine.tickNpc (eng : SocialInfluenceEngine)
    (all_npcs : List NPCVectorialStatus) (npc : NPCVectorialStatus) :
    NPCVectorialStatus :=
  let co_located := all_npcs.filter (fun n => n.location_id = npc.location_id)
  let peer_signal := SocialInfluenceEngine.compute_peer_signal npc co_located
  let susceptibility := SocialInfluenceEngine.compute_susceptibility npc
  let effective_rate := eng.blend_rate * susceptibility
  let blended := addVec npc.social_influence
    (scaleVec effective_rate (subVec peer_signal npc.social_influence))
  let decayed := scaleVec (1 - eng.decay_rate) blended
  { npc with social_influence := clamp01Vec decayed }

/-- The `SocialInfluenceEngine.tick` over all NPCs. -/
def SocialInfluenceEngine.tick (eng : SocialInfluenceEngine)
    (npcs : List NPCVectorialStatus) : List NPCVectorialStatus :=
  npcs.map (eng.tickNpc npcs)

/-! ## Locations (`app/models/locations.py`) -/

/-- The `Location` dataclass. -/
structure Location where
  location_id : String := ""
  name : String := ""
  location_type : String := "generic"
  environment : Vec := zero_vec ENVIRONMENT_DIM
  capacity : ℤ := 0
deriving DecidableEq

/-- The `LocationEdge` dataclass. -/
structure LocationEdge where
  target_id : String
  travel_hours : ℚ := 1
  danger : ℚ := 0
deriving DecidableEq

/-- The `LocationGraph`: locations and per-location outbound edge lists,
both insertion-ordered dicts. -/
structure LocationGraph where
  locations : List (String × Location) := []
  edges : List (String × List LocationEdge) := []
deriving DecidableEq

/-- The `LocationGraph.get_location`. -/
def LocationGraph.get_location (g : LocationGraph) (location_id : String) :
    Option Location :=
  assocGet g.locations location_id

/-- Serialised location entry of `LocationGraph.to_dict` (the JSON
object without the id key). -/
structure LocationDictEntry where
  name : String
  location_type : String
  environment : Vec
  capacity : ℤ
deriving DecidableEq

/-- Serialised edge entry of `LocationGraph.to_dict`. -/
structure EdgeDictEntry where
  target_id : String
  travel_hours : ℚ
  danger : ℚ
deriving DecidableEq

/-- The `to_dict` / `from_dict` wire form of a `LocationGraph`. -/
structure LocationGraphDict where
  locations : List (String × LocationDictEntry)
  edges : List (String × List EdgeDictEntry)
deriving DecidableEq

/-- The `LocationGraph.to_dict`. -/
def LocationGraph.to_dict (g : LocationGraph) : LocationGraphDict :=
  { locations :=
      g.locations.map (fun p =>
        (p.1, { name := p.2.name, location_type := p.2.location_type,
                environment := p.2.environment, capacity := p.2.capacity })),
    edges :=
      g.edges.map (fun p =>
        (p.1, p.2.map (fun e =>
          { target_id := e.target_id, travel_hours := e.travel_hours,
            danger := e.danger }))) }

/-- The `LocationGraph.from_dict`: rebuild locations (registering an empty
edge list for each), then append the edge lists. -/
def LocationGraph.from_dict (d : LocationGraphDict) : LocationGraph :=
  let g : LocationGraph :=
    d.locations.foldl (fun g p =>
      { g with
        locations := g.locations ++
          [(p.1, { location_id := p.1, name := p.2.name,
                   location_type := p.2.location_type,
                   environment := p.2.environment,
                   capacity := p.2.capacity })],
        edges := if g.edges.any (fun q => q.1 = p.1) then g.edges
                 else g.edges ++ [(p.1, [])] })
      { locations := [], edges := [] }
  d.edges.foldl (fun g p =>
    let old := (assocGet g.edges p.1).getD []
    let new_edges := old ++ p.2.map (fun e =>
      { target_id := e.target_id, travel_hours := e.travel_hours,
        danger := e.danger })
    { g with edges := assocSet g.edges p.1 new_edges }) g

/-! ## Environment engine (`app/simulation/environment_engine.py`) -/

/-- The `EnvironmentEngine` configuration. -/
structure EnvironmentEngine where
  blend_rate : ℚ := 1/2

/-- The `compute_crowding`: `count/capacity` clipped to `[0,1]` when the
capacity is positive, else the soft scale `count/20`. -/
def EnvironmentEngine.compute_crowding (location_capacity : ℤ)
    (npc_count_at_location : ℕ) : ℚ :=
  if location_capacity ≤ 0 then
    clampQ 0 1 ((npc_count_at_location : ℚ) / 20)
  else
    clampQ 0 1 ((npc_count_at_location : ℚ) / (location_capacity : ℚ))

/-- One NPC's update in `EnvironmentEngine.tick`: blend the NPC's
environment toward the location environment with crowding overridden by
its dynamic value; NPCs at unknown locations are skipped. -/
def EnvironmentEngine.tickNpc (eng : EnvironmentEngine) (g : LocationGraph)
    (counts : String → ℕ) (npc : NPCVectorialStatus) : NPCVectorialStatus :=
  match g.get_location npc.location_id with
  | none => npc
  | some loc =>
    let crowding :=
      EnvironmentEngine.compute_crowding loc.capacity (counts npc.location_id)
    let target_env := loc.environment.set 3 crowding
    { npc with
      environment :=
        clamp01Vec (addVec npc.environment
          (scaleVec eng.blend_rate (subVec target_env npc.environment))) }

/-- The `EnvironmentEngine.tick`: count NPCs per location, then blend every
NPC's environment vector. -/
def EnvironmentEngine.tick (eng : EnvironmentEngine)
    (npcs : List NPCVectorialStatus) (g : LocationGraph) :
    List NPCVectorialStatus :=
  let counts := fun loc_id =>
    (npcs.filter (fun n => n.location_id = loc_id)).length
  npcs.map (eng.tickNpc g counts)

/-! ## Serialization (`app/agents/serialization.py`) -/

/-- The dict produced by `serialize_npc` (and consumed by
`deserialize_npc`). -/
structure SerializedNPC where
  npc_id : String
  name : String
  archetype : String
  intention : Vec
  emotion : Vec
  personality : Vec
  social_influence : Vec
  environment : Vec
  energy : ℚ
  health : ℚ
  importance : ℚ
  relationships : List (String × ℚ)
  recent_memories : List String
  location_id : String
  activity : String
deriving DecidableEq

/-- The keyword arguments `deserialize_npc` passes to the
`NPCVectorialStatus` constructor, in source order. -/
def deserializeNpcKwargs : List String :=
  ["npc_id", "name", "archetype", "intention", "emotion", "personality",
   "social_influence", "environment", "energy", "health", "importance",
   "relationships", "recent_memories", "location_id", "activity"]

/-- The `serialize_npc`: reads the dynamic attribute `npc.activity`; a
Python `AttributeError` is raised when it was never assigned. -/
def serialize_npc (npc : NPCVectorialStatus) : Except PyErr SerializedNPC :=
  match npc.activityAttr with
  | none => .error .attributeError
  | some activity =>
    .ok { npc_id := npc.npc_id, name := npc.name, archetype := npc.archetype,
          intention := npc.intention, emotion := npc.emotion,
          personality := npc.personality,
          social_influence := npc.social_influence,
          environment := npc.environment, energy := npc.energy,
          health := npc.health, importance := npc.importance,
          relationships := npc.relationships,
          recent_memories := npc.recent_memories,
          location_id := npc.location_id, activity := activity }

/-- The `deserialize_npc`: calls the `NPCVectorialStatus` dataclass
constructor with `deserializeNpcKwargs`.  A Python dataclass `__init__`
raises `TypeError` when passed a keyword that is not a declared field,
so the call succeeds only if every keyword is in
`npcDataclassFields`. -/
def deserialize_npc (data : SerializedNPC) : Except PyErr NPCVectorialStatus :=
  if deserializeNpcKwargs.all (fun k => npcDataclassFields.contains k) then
    .ok { npc_id := data.npc_id, name := data.name,
          archetype := data.archetype, intention := data.intention,
          emotion := data.emotion, personality := data.personality,
          social_influence := data.social_influence,
          environment := data.environment, energy := data.energy,
          health := data.health, importance := data.importance,
          relationships := data.relationships,
          recent_memories := data.recent_memories,
          location_id := data.location_id }
  else .error .typeError

/-! ## Intention engine (`app/simulation/intention_engine.py`)

The default transformation matrices are drawn by a fixed-seed numpy
Gaussian generator; their entries are opaque constants, so definitions
are parameterised by the `ArchetypeWeights` record and theorems quantify
over it. -/

/-- The `ArchetypeWeights`: mixing weights and `input_dim → INTENTION_DIM`
transformation matrices (rows of length `input_dim`). -/
structure ArchetypeWeights where
  w_personality : ℚ := 1/4
  w_emotion : ℚ := 1/4
  w_social : ℚ := 3/20
  w_environment : ℚ := 3/20
  w_momentum : ℚ := 1/5
  m_personality : List Vec
  m_emotion : List Vec
  m_social : List Vec
  m_environment : List Vec

/-- Matrix-vector product `M @ v` (`M` a list of rows). -/
def matVecMul (rows : List Vec) (v : Vec) : Vec :=
  rows.map (fun r => dotVec r v)

/-- The `raw[i] += c` on a numpy array. -/
def vecAddAt (v : Vec) (i : ℕ) (c : ℚ) : Vec :=
  v.set i (v.getD i 0 + c)

/-- The linear combination plus vitality bias computed by
`IntentionEngine.compute` before normalisation (`survive` is index 0,
`escape` index 7). -/
def rawIntention (w : ArchetypeWeights) (npc : NPCVectorialStatus) : Vec :=
  let raw := addVec (addVec (addVec (addVec
    (scaleVec w.w_personality (matVecMul w.m_personality npc.personality))
    (scaleVec w.w_emotion (matVecMul w.m_emotion npc.emotion)))
    (scaleVec w.w_social (matVecMul w.m_social npc.social_influence)))
    (scaleVec w.w_environment (matVecMul w.m_environment npc.environment)))
    (scaleVec w.w_momentum npc.intention)
  let raw :=
    if npc.energy < 3/10 then
      vecAddAt raw 0 (1/2 * ((3/10 - npc.energy) / (3/10)))
    else raw
  if npc.health < 2/5 then
    let deficit := (2/5 - npc.health) / (2/5)
    vecAddAt (vecAddAt raw 0 (4/5 * deficit)) 7 (3/10 * deficit)
  else raw

/-- Sum of squares of a real vector. -/
def l2normSqR (v : List ℝ) : ℝ := (v.map (fun x => x * x)).sum

/-- The `_normalize`: divide by the L2 norm, or return the uniform vector
`1/len` when the norm is below `1e-8`.  The source compares
`np.linalg.norm v < 1e-8`; since the norm is the non-negative square
root of `l2normSq v`, that comparison is equivalent to
`l2normSq v < 1e-16` used here. -/
noncomputable def normalizeVec (v : Vec) : List ℝ :=
  if l2normSq v < 1/10000000000000000 then
    List.replicate v.length ((v.length : ℝ)⁻¹)
  else
    List.map (fun x : ℚ => (x : ℝ) / Real.sqrt ((l2normSq v : ℚ) : ℝ)) v

/-- The `IntentionEngine.compute`: the normalised raw intention. -/
noncomputable def IntentionEngine.compute (w : ArchetypeWeights)
    (npc : NPCVectorialStatus) : List ℝ :=
  normalizeVec (rawIntention w npc)

/-! ## Dialogue tier selector (`app/dialogue/tier_selector.py`) -/

/-- The `DialogueTier` enum. -/
inductive DialogueTier where
  | TEMPLATE : DialogueTier
  | LOCAL_LLM : DialogueTier
  | CLOUD_LLM : DialogueTier
deriving DecidableEq

/-- The `InteractionContext` dataclass. -/
structure InteractionContext where
  player_initiated : Bool := false
  is_quest_critical : Bool := false
  turn_count : ℤ := 0
  local_llm_available : Bool := false
deriving DecidableEq

/-- The `IMPORTANCE_THRESHOLD = 0.8`. -/
def IMPORTANCE_THRESHOLD : ℚ := 4/5

/-- The `TURN_ESCALATION_THRESHOLD = 3`. -/
def TURN_ESCALATION_THRESHOLD : ℤ := 3

/-- The `select_tier`: the source's routing policy. -/
def select_tier (npc : NPCVectorialStatus) (context : InteractionContext) :
    DialogueTier :=
  if context.player_initiated = false then .TEMPLATE
  else
    let needs_cloud :=
      decide (IMPORTANCE_THRESHOLD ≤ npc.importance) ||
      context.is_quest_critical ||
      decide (TURN_ESCALATION_THRESHOLD ≤ context.turn_count)
    if needs_cloud then .CLOUD_LLM
    else if context.local_llm_available then .LOCAL_LLM
    else .CLOUD_LLM

/-- The §4.14 policy as worded by the spec, for comparison with
`select_tier`: not player-initiated gives TEMPLATE; else importance at
least 0.8, quest-critical, or turn count at least 3 gives CLOUD; else a
local LLM gives LOCAL; else CLOUD. -/
def specTierPolicy (importance : ℚ) (player_initiated is_quest_critical : Bool)
    (turn_count : ℤ) (local_llm_available : Bool) : DialogueTier :=
  if player_initiated = false then .TEMPLATE
  else if 4/5 ≤ importance ∨ is_quest_critical = true ∨ 3 ≤ turn_count then
    .CLOUD_LLM
  else if local_llm_available then .LOCAL_LLM
  else .CLOUD_LLM

/-! ## World state manager (`app/world/world_state.py`)

The registry dict `self._npcs` maps `npc.npc_id` to the NPC (enforced by
`add_npc`) and is modelled as the insertion-ordered list of NPCs, with
lookups by the `npc_id` field.  The propagator holds no state beyond the
queue, so resetting both on restore is replacing the queue. -/

/-- The `MAX_RECENT_MEMORIES = 10` (`app/config.py`). -/
def MAX_RECENT_MEMORIES : ℕ := 10

/-- The `TickResult` dataclass. -/
structure TickResult where
  game_time : ℚ := 0
  npcs_updated : ℕ := 0
  events_delivered : ℕ := 0
  events_pending : ℕ := 0
  interactions_resolved : ℕ := 0
  npcs_moved : ℕ := 0
deriving DecidableEq

/-- The `WorldStateManager` state and engine configuration. -/
structure WorldStateManager where
  game_time : ℚ := 0
  npcs : List NPCVectorialStatus := []
  queue : EventQueue := []
  graph : LocationGraph := { locations := [], edges := [] }
  max_npcs : ℕ := 1000
  emotion_engine : EmotionEngine := {}
  vitality_engine : VitalityEngine := {}
  social_engine : SocialInfluenceEngine := {}
  relationship_engine : RelationshipEngine := {}
  environment_engine : EnvironmentEngine := {}

/-- The `WorldStateManager.form_memory_from_event`: append the description
(when non-empty) and trim the recent list to the last
`MAX_RECENT_MEMORIES` entries. -/
def formMemoryFromEvent (event : WorldEvent) (npc : NPCVectorialStatus) :
    NPCVectorialStatus :=
  if event.description = "" then npc
  else
    let mems := npc.recent_memories ++ [event.description]
    { npc with
      recent_memories :=
        if MAX_RECENT_MEMORIES < mems.length then
          mems.drop (mems.length - MAX_RECENT_MEMORIES)
        else mems }

/-- The `WorldStateManager.submit_event`: stamp a zero timestamp with the
current game time, then hand off to the propagator. -/
def submitEvent (game_time : ℚ) (event : WorldEvent) (q : EventQueue) :
    EventQueue × ℕ :=
  let event :=
    if event.timestamp = 0 then { event with timestamp := game_time } else event
  EventPropagator.submit event q

/-- The `VitalityEngine.apply_event_batch`. -/
def VitalityEngine.apply_event_batch (npcs : List NPCVectorialStatus)
    (event : WorldEvent) : List NPCVectorialStatus :=
  npcs.map (fun npc => VitalityEngine.apply_event npc event)

/-- Modelled from the spec: `app/simulation/interaction_engine.py` is
absent from the source tree (only its tests and the manager's calls
exist).  Per §4.6 an outcome carries both participant ids, the
relationship delta, the shared energy cost, per-participant health
deltas, and the constructed `WorldEvent`. -/
structure InteractionOutcome where
  npc_a_id : String
  npc_b_id : String
  relationship_delta : ℚ
  energy_cost : ℚ
  health_delta_a : ℚ
  health_delta_b : ℚ
  event : WorldEvent

/-- Replace the registry entry whose `npc_id` matches (in-place object
mutation through the registry dict). -/
def replaceNpc (npcs : List NPCVectorialStatus) (npc_id : String)
    (new_npc : NPCVectorialStatus) : List NPCVectorialStatus :=
  npcs.map (fun n => if n.npc_id = npc_id then new_npc else n)

/-- Stage 7 body for one interaction outcome: apply the relationship
delta and vitality costs, form memories for both participants, then
submit the outcome's event for propagation. -/
def applyOutcome (rel_eng : RelationshipEngine) (t : ℚ)
    (st : List NPCVectorialStatus × EventQueue) (o : InteractionOutcome) :
    List NPCVectorialStatus × EventQueue :=
  let npcs := st.1
  let q := st.2
  let npcs :=
    match npcs.find? (fun n => n.npc_id = o.npc_a_id),
          npcs.find? (fun n => n.npc_id = o.npc_b_id) with
    | some npc_a, some npc_b =>
      let ab := rel_eng.apply_delta npc_a npc_b o.relationship_delta
      let npc_a := VitalityEngine.applyInteractionCost ab.1 o.energy_cost o.health_delta_a
      let npc_b := VitalityEngine.applyInteractionCost ab.2 o.energy_cost o.health_delta_b
      let npc_a := formMemoryFromEvent o.event npc_a
      let npc_b := formMemoryFromEvent o.event npc_b
      replaceNpc (replaceNpc npcs o.npc_a_id npc_a) o.npc_b_id npc_b
    | _, _ => npcs
  (npcs, (submitEvent t o.event q).1)

/-- The three tick stages whose exact values the source makes opaque:
stage 5 recomputes intentions with fixed-seed random matrices and an
irrational normalisation, stage 6 is the interaction engine missing from
the source tree (its sampling is random), and stage 9 movement draws
random numbers.  The tick is embedded relative to these, and every tick
theorem quantifies over them, so it holds for the source's actual
behaviour. -/
structure TickOracles where
  intentionStage : List NPCVectorialStatus → List NPCVectorialStatus
  interactionOutcomes : List NPCVectorialStatus → ℚ → List InteractionOutcome
  movementStage : List NPCVectorialStatus → LocationGraph → ℚ →
    List NPCVectorialStatus × ℕ

/-- The `WorldStateManager.tick`: advance the clock, pop due events, and —
unless the NPC set is empty — run pipeline stages 3 through 12 in source
order.  Returns the new manager state and the `TickResult`. -/
def WorldStateManager.tick (oracle : TickOracles) (m : WorldStateManager)
    (delta_hours : ℚ) : WorldStateManager × TickResult :=
  let t := m.game_time + delta_hours
  let popped := EventQueue.pop_due m.queue t
  let due_events := popped.1
  let q := popped.2
  let npcs := m.npcs
  if npcs.isEmpty then
    ({ m with game_time := t, queue := q },
     { game_time := t, npcs_updated := npcs.length,
       events_delivered := due_events.length, events_pending := q.length,
       interactions_resolved := 0, npcs_moved := 0 })
  else
    let npcs := due_events.foldl (fun ns ev =>
      let ns := m.emotion_engine.apply_event_batch ns ev
      let ns := VitalityEngine.apply_event_batch ns ev
      let ns := m.social_engine.apply_event_batch ns ev
      ns.map (formMemoryFromEvent ev)) npcs
    let npcs := m.emotion_engine.tick npcs
    let npcs := oracle.intentionStage npcs
    let outcomes := oracle.interactionOutcomes npcs t
    let st := outcomes.foldl (applyOutcome m.relationship_engine t) (npcs, q)
    let npcs := st.1
    let q := st.2
    let npcs := npcs.map m.relationship_engine.decayNpc
    let moved := oracle.movementStage npcs m.graph t
    let npcs := moved.1
    let npcs := m.environment_engine.tick npcs m.graph
    let npcs := m.vitality_engine.tick npcs
    let npcs := m.social_engine.tick npcs
    ({ m with game_time := t, queue := q, npcs := npcs },
     { game_time := t, npcs_updated := m.npcs.length,
       events_delivered := due_events.length, events_pending := q.length,
       interactions_resolved := outcomes.length, npcs_moved := moved.2 })

/-- The tree produced by `WorldStateManager.snapshot`. -/
structure WorldSnapshot where
  game_time : ℚ
  npcs : List (String × SerializedNPC)
  locations : LocationGraphDict
deriving DecidableEq

/-- The `WorldStateManager.snapshot`: serialise the game time, every NPC,
and the location graph; the first per-NPC failure aborts. -/
def WorldStateManager.snapshot (m : WorldStateManager) :
    Except PyErr WorldSnapshot :=
  match m.npcs.mapM (fun npc => (serialize_npc npc).map (fun s => (npc.npc_id, s))) with
  | .error e => .error e
  | .ok serialized =>
    .ok { game_time := m.game_time, npcs := serialized,
          locations := m.graph.to_dict }

/-- Input to `restore`: a snapshot-shaped tree in which any of the keys
the code subscripts may be missing (`none` models an absent dict key). -/
structure RestoreData where
  game_time : Option ℚ := none
  npcs : Option (List (String × SerializedNPC)) := none
  locations : Option LocationGraphDict := none

/-- View a well-formed snapshot as restore input. -/
def WorldSnapshot.toRestoreData (s : WorldSnapshot) : RestoreData :=
  { game_time := some s.game_time, npcs := some s.npcs,
    locations := some s.locations }

/-- The `for npc_id, npc_data in data["npcs"].items()` loop of
`restore`: deserialisation failure aborts, keeping the NPCs stored so
far. -/
def restoreNpcsLoop (m : WorldStateManager) :
    List (String × SerializedNPC) → WorldStateManager × Option PyErr
  | [] => (m, none)
  | (_, npc_data) :: rest =>
    match deserialize_npc npc_data with
    | .error e => (m, some e)
    | .ok npc => restoreNpcsLoop { m with npcs := m.npcs ++ [npc] } rest

/-- The `WorldStateManager.restore`: replace the clock, clear and refill the
registry, reset queue and propagator, and replace the graph when a
`locations` key is present.  Each step mutates the manager before the
next can fail, exactly as the source's statement order does. -/
def WorldStateManager.restore (m : WorldStateManager) (data : RestoreData) :
    WorldStateManager × Option PyErr :=
  match data.game_time with
  | none => (m, some .keyError)
  | some t =>
    let m := { m with game_time := t }
    let m := { m with npcs := [] }
    match data.npcs with
    | none => (m, some .keyError)
    | some entries =>
      match restoreNpcsLoop m entries with
      | (m1, some e) => (m1, some e)
      | (m1, none) =>
        let m2 := { m1 with queue := [] }
        match data.locations with
        | none => (m2, none)
        | some d => ({ m2 with graph := LocationGraph.from_dict d }, none)

/-! ## Theorems -/

/-- C9: for every NPC and interaction context, `select_tier` implements
exactly the spec's four-step policy: TEMPLATE when not player-initiated;
else CLOUD when importance is at least 0.8, the request is
quest-critical, or the turn count is at least 3; else LOCAL when a local
LLM is available; else CLOUD. -/
theorem select_tier_policy (npc : NPCVectorialStatus)
    (context : InteractionContext) :
    select_tier npc context =
      specTierPolicy npc.importance context.player_initiated
        context.is_quest_critical context.turn_count
        context.local_llm_available := by
  rcases context with ⟨pi, qc, tc, ll⟩
  unfold select_tier specTierPolicy
  cases pi <;> cases qc <;> cases ll <;>
    by_cases h1 : IMPORTANCE_THRESHOLD ≤ npc.importance <;>
    by_cases h2 : TURN_ESCALATION_THRESHOLD ≤ tc <;>
    simp [h1, h2, IMPORTANCE_THRESHOLD, TURN_ESCALATION_THRESHOLD]

/-- The intensity bound carried by a successful `next_propagation`. -/
theorem next_propagation_intensity {e : WorldEvent} {ns : LocalityScale}
    {d ni : ℚ} (h : e.next_propagation = some (ns, d, ni)) :
    INTENSITY_THRESHOLD ≤ e.intensity := by
  unfold WorldEvent.next_propagation at h
  by_cases hc : e.can_propagate
  · unfold WorldEvent.can_propagate at hc
    by_cases hi : e.intensity < INTENSITY_THRESHOLD
    · simp [hi] at hc
    · exact le_of_not_lt hi
  · simp [hc] at h

/-- C10: `EventPropagator.submit` is total.  The impact-scaling ratio's
denominator `max(intensity, 1e-8)` is strictly positive for every
intensity (zero included), and whenever the cascade actually proceeds —
`next_propagation` returned a step, which requires the intensity to be
at least the 0.02 threshold — the `max` guard leaves the ratio exactly
`new_intensity / intensity`. -/
theorem submit_ratio_total (e : WorldEvent) :
    0 < max e.intensity (1/100000000) ∧
      (∀ ns d ni, e.next_propagation = some (ns, d, ni) →
        INTENSITY_THRESHOLD ≤ e.intensity ∧
          impactRatio ni e.intensity = ni / e.intensity) := by
  constructor
  · exact lt_of_lt_of_le (by norm_num) (le_max_right _ _)
  · intro ns d ni h
    have hi := next_propagation_intensity h
    refine ⟨hi, ?_⟩
    unfold impactRatio
    rw [max_eq_left]
    calc (1:ℚ)/100000000 ≤ INTENSITY_THRESHOLD := by
          unfold INTENSITY_THRESHOLD; norm_num
      _ ≤ e.intensity := hi

/-- Witness for `submit_ratio_total` at the default event (intensity 1,
scale PERSONAL). -/
theorem submit_ratio_total_witness :
    INTENSITY_THRESHOLD ≤ ({} : WorldEvent).intensity ∧
      impactRatio (4/5) ({} : WorldEvent).intensity =
        (4/5) / ({} : WorldEvent).intensity := by
  have hnp : ({} : WorldEvent).next_propagation = some (.FAMILY, 1, 4/5) := by
    simp [WorldEvent.next_propagation, WorldEvent.can_propagate,
      PROPAGATION_RULES, INTENSITY_THRESHOLD, LocalityScale.next,
      LocalityScale.toNat]
    norm_num
  exact (submit_ratio_total {}).2 .FAMILY 1 (4/5) hnp

/-! ### C6: relationship `apply_delta` -/

/-- The `dictGet` after `dictSet` at the same key returns the stored value
(update branch). -/
theorem dictGet_map_update (d : List (String × ℚ)) (k : String) (v dflt : ℚ)
    (h : d.any (fun p => p.1 = k)) :
    dictGet (d.map (fun p => if p.1 = k then (k, v) else p)) k dflt = v := by
  induction d with
  | nil => simp at h
  | cons p rest ih =>
    by_cases hk : p.1 = k
    · simp only [List.map_cons, if_pos hk]
      unfold dictGet
      rw [List.find?_cons_of_pos _ (by simp)]
    · simp only [List.map_cons, if_neg hk]
      simp only [List.any_cons, Bool.or_eq_true, decide_eq_true_eq] at h
      have h' : rest.any (fun q => q.1 = k) := by
        rcases h with h1 | h2
        · exact absurd h1 hk
        · exact h2
      unfold dictGet at ih ⊢
      rw [List.find?_cons_of_neg _ (by simpa using hk)]
      exact ih h'

/-- The `dictGet` after `dictSet` at the same key returns the stored value
(append branch). -/
theorem dictGet_append_new (d : List (String × ℚ)) (k : String) (v dflt : ℚ)
    (h : d.any (fun p => p.1 = k) = false) :
    dictGet (d ++ [(k, v)]) k dflt = v := by
  induction d with
  | nil =>
    unfold dictGet
    rw [List.nil_append, List.find?_cons_of_pos _ (by simp)]
  | cons p rest ih =>
    simp only [List.any_cons, Bool.or_eq_false_iff, decide_eq_false_iff_not] at h
    unfold dictGet at ih ⊢
    rw [List.cons_append, List.find?_cons_of_neg _ (by simpa using h.1)]
    exact ih (by simpa using h.2)

/-- The `dictGet` after `dictSet` at the same key returns the stored value. -/
theorem dictGet_dictSet (d : List (String × ℚ)) (k : String) (v dflt : ℚ) :
    dictGet (dictSet d k v) k dflt = v := by
  unfold dictSet
  by_cases h : d.any (fun p => p.1 = k)
  · rw [if_pos h]; exact dictGet_map_update d k v dflt h
  · rw [if_neg h]
    exact dictGet_append_new d k v dflt (by rwa [Bool.not_eq_true] at h)

/-- Clamping to `[-1, 1]` bounds the absolute value by 1. -/
theorem abs_clampQ_le_one (x : ℚ) : |clampQ (-1) 1 x| ≤ 1 := by
  unfold clampQ
  rw [abs_le]
  exact ⟨le_max_left _ _, max_le (by norm_num) (min_le_left _ _)⟩

/-- C6 (amended): after `apply_delta(a, b, delta)` each side's stored
affinity equals `clamp(old + delta * delta_scale * (1 - |old|), -1, 1)`
of its own previously stored value and has absolute value at most 1;
the two stored affinities coincide whenever the previously stored
affinities coincided (in particular when both sides were strangers). -/
theorem apply_delta_damped_clamped (eng : RelationshipEngine)
    (a b : NPCVectorialStatus) (delta : ℚ) :
    dictGet (eng.apply_delta a b delta).1.relationships b.npc_id 0 =
        clampQ (-1) 1 (dictGet a.relationships b.npc_id 0 +
          delta * eng.delta_scale *
            (1 - |dictGet a.relationships b.npc_id 0|)) ∧
      dictGet (eng.apply_delta a b delta).2.relationships a.npc_id 0 =
        clampQ (-1) 1 (dictGet b.relationships a.npc_id 0 +
          delta * eng.delta_scale *
            (1 - |dictGet b.relationships a.npc_id 0|)) ∧
      |dictGet (eng.apply_delta a b delta).1.relationships b.npc_id 0| ≤ 1 ∧
      |dictGet (eng.apply_delta a b delta).2.relationships a.npc_id 0| ≤ 1 ∧
      (dictGet a.relationships b.npc_id 0 = dictGet b.relationships a.npc_id 0 →
        dictGet (eng.apply_delta a b delta).1.relationships b.npc_id 0 =
          dictGet (eng.apply_delta a b delta).2.relationships a.npc_id 0) := by
  unfold RelationshipEngine.apply_delta
  simp only [dictGet_dictSet]
  refine ⟨by ring_nf, by ring_nf, abs_clampQ_le_one _, abs_clampQ_le_one _, ?_⟩
  intro h
  rw [h]

/-- Witness for `apply_delta_damped_clamped`: two strangers (empty
relationship dicts) and delta 1/2 end symmetric at 1/2. -/
theorem apply_delta_damped_clamped_witness :
    dictGet (({} : RelationshipEngine).apply_delta
        { npc_id := "a" } { npc_id := "b" } (1/2)).1.relationships "b" 0 =
      dictGet (({} : RelationshipEngine).apply_delta
        { npc_id := "a" } { npc_id := "b" } (1/2)).2.relationships "a" 0 := by
  exact (apply_delta_damped_clamped {} { npc_id := "a" } { npc_id := "b" }
    (1/2)).2.2.2.2 rfl

/-- C6 counterexample: with asymmetric prior stored affinities
(`a` holds 1/2 toward `b`, `b` holds nothing toward `a`), `apply_delta`
with delta 1/10 leaves the two sides unequal (11/20 versus 1/10), so the
claimed unconditional symmetry fails. -/
theorem apply_delta_symmetry_fails :
    dictGet (({} : RelationshipEngine).apply_delta
        { npc_id := "a", relationships := [("b", 1/2)] }
        { npc_id := "b" } (1/10)).1.relationships "b" 0 = 11/20 ∧
      dictGet (({} : RelationshipEngine).apply_delta
        { npc_id := "a", relationships := [("b", 1/2)] }
        { npc_id := "b" } (1/10)).2.relationships "a" 0 = 1/10 ∧
      (11/20 : ℚ) ≠ 1/10 := by
  have habs : |(1:ℚ)/2| = 1/2 := by rw [abs_of_nonneg]; norm_num
  refine ⟨?_, ?_, by norm_num⟩ <;>
  · simp only [RelationshipEngine.apply_delta, dictGet_dictSet]
    norm_num [dictGet, List.find?, RELATIONSHIP_DELTA_SCALE, habs, clampQ,
      min_def, max_def]

/-! ### C3: propagation cascade depth -/

/-- The `cascade` when the event cannot propagate. -/
theorem cascade_none (current : WorldEvent) (q : EventQueue)
    (h : current.next_propagation = none) : cascade current q = (q, 0) := by
  rw [cascade.eq_def, h]

/-- The `cascade` when one more propagation step is taken. -/
theorem cascade_some (current : WorldEvent) (q : EventQueue)
    (ns : LocalityScale) (d ni : ℚ)
    (h : current.next_propagation = some (ns, d, ni)) :
    cascade current q =
      ((cascade (propagatedCopy current ns d ni)
          (q.push (propagatedCopy current ns d ni) (current.timestamp + d))).1,
        (cascade (propagatedCopy current ns d ni)
          (q.push (propagatedCopy current ns d ni) (current.timestamp + d))).2
          + 1) := by
  rw [cascade.eq_def, h]

/-- The `next_propagation` takes a step under these evaluated conditions. -/
theorem next_propagation_eq {e : WorldEvent} {d a : ℚ}
    (hi : INTENSITY_THRESHOLD ≤ e.intensity)
    (hs5 : e.current_scale.toNat < 5)
    (hrule : PROPAGATION_RULES e.current_scale e.current_scale.next =
      some (d, a))
    (hni : INTENSITY_THRESHOLD ≤ e.intensity * a) :
    e.next_propagation = some (e.current_scale.next, d, e.intensity * a) := by
  have hcp : e.can_propagate = true := by
    unfold WorldEvent.can_propagate
    rw [if_neg (not_lt.mpr hi)]
    simpa [LocalityScale.toNat] using hs5
  unfold WorldEvent.next_propagation
  rw [hcp]
  simp only [if_true]
  rw [hrule]
  simp only
  rw [if_neg (not_lt.mpr hni)]

/-- The `next_propagation` stops when the attenuated intensity would drop
below the threshold. -/
theorem next_propagation_stop {e : WorldEvent} {d a : ℚ}
    (hi : INTENSITY_THRESHOLD ≤ e.intensity)
    (hs5 : e.current_scale.toNat < 5)
    (hrule : PROPAGATION_RULES e.current_scale e.current_scale.next =
      some (d, a))
    (hni : e.intensity * a < INTENSITY_THRESHOLD) :
    e.next_propagation = none := by
  have hcp : e.can_propagate = true := by
    unfold WorldEvent.can_propagate
    rw [if_neg (not_lt.mpr hi)]
    simpa [LocalityScale.toNat] using hs5
  unfold WorldEvent.next_propagation
  rw [hcp]
  simp only [if_true]
  rw [hrule]
  simp only
  rw [if_pos hni]

/-- C3 (amended): for a submitted event at current scale PERSONAL whose
intensity is at least 1/6 — so that the cumulative attenuations 0.8,
0.8·0.5 and 0.8·0.5·0.3 keep every propagated intensity at or above the
0.02 threshold through REGIONAL — and at most 1, the propagator
schedules exactly 4 deliveries (PERSONAL, FAMILY, CITY, REGIONAL); the
REGIONAL→NATIONAL copy would carry intensity 0.018·intensity < 0.02, so
NATIONAL is never reached for admissible intensities. -/
theorem submit_personal_four_deliveries (e : WorldEvent) (q : EventQueue)
    (hs : e.current_scale = .PERSONAL)
    (h1 : 1/6 ≤ e.intensity) (h2 : e.intensity ≤ 1) :
    (EventPropagator.submit e q).2 = 4 := by
  have hT : INTENSITY_THRESHOLD = 1/50 := rfl
  have hnp1 : e.next_propagation = some (.FAMILY, 1, e.intensity * (4/5)) := by
    have h := next_propagation_eq (e := e) (d := 1) (a := 4/5)
      (by rw [hT]; linarith) (by rw [hs]; norm_num [LocalityScale.toNat])
      (by rw [hs]; rfl) (by rw [hT]; linarith)
    rw [hs] at h
    exact h
  have hnp2 : (propagatedCopy e .FAMILY 1 (e.intensity * (4/5))).next_propagation
      = some (.CITY, 4, e.intensity * (4/5) * (1/2)) := by
    have h := next_propagation_eq
      (e := propagatedCopy e .FAMILY 1 (e.intensity * (4/5))) (d := 4) (a := 1/2)
      (by show INTENSITY_THRESHOLD ≤ e.intensity * (4/5); rw [hT]; linarith)
      (by norm_num [propagatedCopy, LocalityScale.toNat])
      (by rfl)
      (by show INTENSITY_THRESHOLD ≤ e.intensity * (4/5) * (1/2); rw [hT]; linarith)
    exact h
  have hnp3 : (propagatedCopy (propagatedCopy e .FAMILY 1 (e.intensity * (4/5)))
        .CITY 4 (e.intensity * (4/5) * (1/2))).next_propagation
      = some (.REGIONAL, 24, e.intensity * (4/5) * (1/2) * (3/10)) := by
    have h := next_propagation_eq
      (e := propagatedCopy (propagatedCopy e .FAMILY 1 (e.intensity * (4/5)))
        .CITY 4 (e.intensity * (4/5) * (1/2))) (d := 24) (a := 3/10)
      (by show INTENSITY_THRESHOLD ≤ e.intensity * (4/5) * (1/2); rw [hT]; linarith)
      (by norm_num [propagatedCopy, LocalityScale.toNat])
      (by rfl)
      (by show INTENSITY_THRESHOLD ≤ e.intensity * (4/5) * (1/2) * (3/10)
          rw [hT]; linarith)
    exact h
  have hnp4 : (propagatedCopy (propagatedCopy (propagatedCopy e
        .FAMILY 1 (e.intensity * (4/5))) .CITY 4 (e.intensity * (4/5) * (1/2)))
        .REGIONAL 24 (e.intensity * (4/5) * (1/2) * (3/10))).next_propagation
      = none := by
    apply next_propagation_stop (d := 72) (a := 3/20)
    · show INTENSITY_THRESHOLD ≤ e.intensity * (4/5) * (1/2) * (3/10)
      rw [hT]; linarith
    · norm_num [propagatedCopy, LocalityScale.toNat]
    · rfl
    · show e.intensity * (4/5) * (1/2) * (3/10) * (3/20) < INTENSITY_THRESHOLD
      rw [hT]; nlinarith
  show (cascade e (q.push e e.timestamp)).2 + 1 = 4
  rw [cascade_some _ _ _ _ _ hnp1]
  simp only
  rw [cascade_some _ _ _ _ _ hnp2]
  simp only
  rw [cascade_some _ _ _ _ _ hnp3]
  simp only
  rw [cascade_none _ _ hnp4]

/-- Witness for `submit_personal_four_deliveries` at intensity 1/2. -/
theorem submit_personal_four_deliveries_witness :
    ({ intensity := 1/2 } : WorldEvent).current_scale = .PERSONAL ∧
      (1/6 : ℚ) ≤ 1/2 ∧ (1/2 : ℚ) ≤ 1 ∧
      (EventPropagator.submit { intensity := 1/2 } []).2 = 4 := by
  refine ⟨rfl, by norm_num, by norm_num, ?_⟩
  exact submit_personal_four_deliveries { intensity := 1/2 } [] rfl
    (by norm_num) (by norm_num)

/-- C3 counterexample: an event submitted with intensity exactly 0.02
(the claim's lower bound) and origin scale PERSONAL schedules exactly 1
delivery, not the claimed 4: the first attenuation yields
0.02·0.8 = 0.016 < 0.02 and the cascade stops immediately. -/
theorem submit_low_intensity_single_delivery :
    INTENSITY_THRESHOLD ≤ ({ intensity := 1/50 } : WorldEvent).intensity ∧
      ({ intensity := 1/50 } : WorldEvent).origin_scale = .PERSONAL ∧
      (EventPropagator.submit { intensity := 1/50 } []).2 = 1 := by
  refine ⟨le_refl _, rfl, ?_⟩
  have hnp : ({ intensity := 1/50 } : WorldEvent).next_propagation = none := by
    apply next_propagation_stop (d := 1) (a := 4/5)
    · exact le_refl _
    · norm_num [LocalityScale.toNat]
    · rfl
    · norm_num [INTENSITY_THRESHOLD]
  show (cascade { intensity := 1/50 }
    (EventQueue.push [] { intensity := 1/50 }
      ({ intensity := 1/50 } : WorldEvent).timestamp)).2 + 1 = 1
  rw [cascade_none _ _ hnp]

/-! ### C5: `pop_due` -/

/-- C5: on a queue sorted by delivery time (the representation invariant
`push` maintains), `pop_due(now)` returns exactly the events whose
delivery time is at most `now`, in non-decreasing delivery-time order
(the times of the removed entries are the sorted times of the kept
filter), leaves exactly the events with delivery time strictly after
`now`, and returns the empty list on the empty queue. -/
theorem pop_due_spec (q : EventQueue) (now : ℚ)
    (hs : List.Sorted (fun a b : ℚ × WorldEvent => a.1 ≤ b.1) q) :
    (EventQueue.pop_due q now).1 =
        (q.filter (fun p => p.1 ≤ now)).map Prod.snd ∧
      (EventQueue.pop_due q now).2 = q.filter (fun p => now < p.1) ∧
      List.Sorted (· ≤ ·) ((q.filter (fun p => p.1 ≤ now)).map Prod.fst) ∧
      EventQueue.pop_due ([] : EventQueue) now = ([], []) := by
  refine ⟨?_, ?_, ?_, rfl⟩
  · induction q with
    | nil => rfl
    | cons hd tl ih =>
      rcases hd with ⟨t0, e0⟩
      obtain ⟨hhd, htl⟩ := List.sorted_cons.mp hs
      by_cases h : t0 ≤ now
      · simp [EventQueue.pop_due, h, ih htl]
      · have hlt : now < t0 := not_le.mp h
        have hnil : tl.filter (fun p => decide (p.1 ≤ now)) = [] := by
          rw [List.filter_eq_nil_iff]
          intro p hp
          simp only [decide_eq_true_eq]
          exact not_le.mpr (lt_of_lt_of_le hlt (hhd p hp))
        simp [EventQueue.pop_due, h, hnil]
  · induction q with
    | nil => rfl
    | cons hd tl ih =>
      rcases hd with ⟨t0, e0⟩
      obtain ⟨hhd, htl⟩ := List.sorted_cons.mp hs
      by_cases h : t0 ≤ now
      · have : ¬ now < t0 := not_lt.mpr h
        simp [EventQueue.pop_due, h, this, ih htl]
      · have hlt : now < t0 := not_le.mp h
        have hall : tl.filter (fun p => decide (now < p.1)) = tl := by
          rw [List.filter_eq_self]
          intro p hp
          simp only [decide_eq_true_eq]
          exact lt_of_lt_of_le hlt (hhd p hp)
        simp [EventQueue.pop_due, h, hlt, hall]
  · have hf := List.Pairwise.filter (fun p => decide (p.1 ≤ now)) hs
    rw [List.Sorted, List.pairwise_map]
    exact hf

/-- Membership after `push`: the new entry joins the old ones. -/
theorem mem_push {q : EventQueue} {e : WorldEvent} {t : ℚ}
    {b : ℚ × WorldEvent} : b ∈ q.push e t ↔ b ∈ q ∨ b = (t, e) := by
  induction q with
  | nil => simp [EventQueue.push]
  | cons hd tl ih =>
    rcases hd with ⟨t0, e0⟩
    unfold EventQueue.push
    by_cases h : t0 ≤ t
    · simp only [if_pos h, List.mem_cons, ih]
      tauto
    · simp only [if_neg h, List.mem_cons]
      tauto

/-- The `push` maintains the delivery-time sortedness `pop_due` relies on. -/
theorem push_sorted (q : EventQueue) (e : WorldEvent) (t : ℚ)
    (hs : List.Sorted (fun a b : ℚ × WorldEvent => a.1 ≤ b.1) q) :
    List.Sorted (fun a b : ℚ × WorldEvent => a.1 ≤ b.1) (q.push e t) := by
  induction q with
  | nil => simp [EventQueue.push]
  | cons hd tl ih =>
    rcases hd with ⟨t0, e0⟩
    obtain ⟨hhd, htl⟩ := List.sorted_cons.mp hs
    unfold EventQueue.push
    by_cases h : t0 ≤ t
    · rw [if_pos h, List.sorted_cons]
      refine ⟨?_, ih htl⟩
      intro b hb
      rcases mem_push.mp hb with hb1 | hb2
      · exact hhd b hb1
      · rw [hb2]; exact h
    · rw [if_neg h, List.sorted_cons]
      refine ⟨?_, hs⟩
      intro b hb
      rcases List.mem_cons.mp hb with rfl | hb2
      · exact le_of_lt (not_le.mp h)
      · exact le_trans (le_of_lt (not_le.mp h)) (hhd b hb2)

/-- Witness for `pop_due_spec`: a two-entry queue at times 1 and 3
popped at time 2 returns the first event and keeps the second. -/
theorem pop_due_spec_witness :
    (EventQueue.pop_due
        [((1:ℚ), ({ event_id := "e1" } : WorldEvent)),
         (3, { event_id := "e2" })] 2).1 = [{ event_id := "e1" }] ∧
      (EventQueue.pop_due
        [((1:ℚ), ({ event_id := "e1" } : WorldEvent)),
         (3, { event_id := "e2" })] 2).2 = [(3, { event_id := "e2" })] := by
  have hs : List.Sorted (fun a b : ℚ × WorldEvent => a.1 ≤ b.1)
      [((1:ℚ), ({ event_id := "e1" } : WorldEvent)),
       (3, { event_id := "e2" })] := by
    norm_num [List.sorted_cons]
  have h := pop_due_spec _ 2 hs
  refine ⟨?_, ?_⟩
  · rw [h.1]
    norm_num [List.filter]
  · rw [h.2.1]
    norm_num [List.filter]


/-! ### C4: intention normalisation -/

/-- Casting the rational sum of squares to the reals. -/
theorem l2normSq_cast (v : Vec) :
    ((l2normSq v : ℚ) : ℝ) = (v.map (fun x : ℚ => (x:ℝ) * (x:ℝ))).sum := by
  induction v with
  | nil => simp [l2normSq]
  | cons x xs ih =>
    unfold l2normSq at ih ⊢
    simp only [List.map_cons, List.sum_cons]
    rw [Rat.cast_add, Rat.cast_mul, ih]

/-- Dot product with an all-zero right argument vanishes. -/
theorem dotVec_zero_right (r : Vec) (n : ℕ) :
    dotVec r (List.replicate n 0) = 0 := by
  induction r generalizing n with
  | nil => simp [dotVec]
  | cons x xs ih =>
    cases n with
    | zero => simp [dotVec]
    | succ m =>
      unfold dotVec at ih ⊢
      rw [List.replicate_succ, List.zipWith_cons_cons, List.sum_cons, ih m]
      simp

/-- Matrix application to the zero vector gives the zero vector. -/
theorem matVecMul_zero_vec (rows : List Vec) (n : ℕ) :
    matVecMul rows (List.replicate n 0) = List.replicate rows.length 0 := by
  unfold matVecMul
  induction rows with
  | nil => simp
  | cons r rest ih =>
    rw [List.map_cons, dotVec_zero_right, ih, List.length_cons,
      List.replicate_succ]

/-- Scaling the zero vector gives the zero vector. -/
theorem scaleVec_zero (c : ℚ) (k : ℕ) :
    scaleVec c (List.replicate k 0) = List.replicate k 0 := by
  simp [scaleVec, List.map_replicate]

/-- Adding two zero vectors gives the zero vector. -/
theorem addVec_zero_zero (k : ℕ) :
    addVec (List.replicate k 0) (List.replicate k 0) =
      List.replicate k (0:ℚ) := by
  induction k with
  | zero => rfl
  | succ m ih =>
    rw [List.replicate_succ]
    unfold addVec at ih ⊢
    rw [List.zipWith_cons_cons, ih]
    simp

/-- C4 (amended): whenever the raw combined intention vector has squared
norm at least `1e-16` — i.e. L2 norm at least the source's `1e-8`
threshold — the recomputed intention has squared L2 norm exactly 1
(hence L2 norm exactly 1, within any tolerance); otherwise the engine
returns the uniform vector `1/len`, whose norm is not 1. -/
theorem intention_norm_unit (w : ArchetypeWeights) (npc : NPCVectorialStatus) :
    (1/10000000000000000 ≤ l2normSq (rawIntention w npc) →
      l2normSqR (IntentionEngine.compute w npc) = 1) ∧
      (l2normSq (rawIntention w npc) < 1/10000000000000000 →
        IntentionEngine.compute w npc =
          List.replicate (rawIntention w npc).length
            (((rawIntention w npc).length : ℝ)⁻¹)) := by
  constructor
  · intro h
    unfold IntentionEngine.compute normalizeVec
    rw [if_neg (not_lt.mpr h)]
    have hs0 : (0:ℚ) < l2normSq (rawIntention w npc) :=
      lt_of_lt_of_le (by norm_num) h
    have hs0R : (0:ℝ) < ((l2normSq (rawIntention w npc) : ℚ) : ℝ) := by
      exact_mod_cast hs0
    unfold l2normSqR
    rw [List.map_map]
    have hfun : ((fun x : ℝ => x * x) ∘
        fun x : ℚ => (x:ℝ) / Real.sqrt ((l2normSq (rawIntention w npc) : ℚ) : ℝ)) =
        fun x : ℚ => ((x:ℝ) * (x:ℝ)) *
          (((l2normSq (rawIntention w npc) : ℚ) : ℝ))⁻¹ := by
      funext x
      simp only [Function.comp]
      rw [div_mul_div_comm, Real.mul_self_sqrt hs0R.le, div_eq_mul_inv]
    rw [hfun, List.sum_map_mul_right, ← l2normSq_cast]
    exact mul_inv_cancel₀ (ne_of_gt hs0R)
  · intro h
    unfold IntentionEngine.compute normalizeVec
    rw [if_pos h]

/-- Witness for `intention_norm_unit`: zero matrices and a unit first
intention coordinate give raw vector `[1/5, 0, …]`, squared norm `1/25`
above the threshold, and a unit-norm result. -/
theorem intention_norm_unit_witness :
    (1/10000000000000000 : ℚ) ≤
        l2normSq (rawIntention
          { m_personality := List.replicate 8 (List.replicate 5 0),
            m_emotion := List.replicate 8 (List.replicate 8 0),
            m_social := List.replicate 8 (List.replicate 6 0),
            m_environment := List.replicate 8 (List.replicate 4 0) }
          { npc_id := "unit", intention := [1, 0, 0, 0, 0, 0, 0, 0],
            emotion := zero_vec 8, personality := zero_vec 5,
            social_influence := zero_vec 6, environment := zero_vec 4 }) ∧
      l2normSqR (IntentionEngine.compute
        { m_personality := List.replicate 8 (List.replicate 5 0),
          m_emotion := List.replicate 8 (List.replicate 8 0),
          m_social := List.replicate 8 (List.replicate 6 0),
          m_environment := List.replicate 8 (List.replicate 4 0) }
        { npc_id := "unit", intention := [1, 0, 0, 0, 0, 0, 0, 0],
          emotion := zero_vec 8, personality := zero_vec 5,
          social_influence := zero_vec 6, environment := zero_vec 4 }) = 1 := by
  have hsq : l2normSq (rawIntention
      { m_personality := List.replicate 8 (List.replicate 5 0),
        m_emotion := List.replicate 8 (List.replicate 8 0),
        m_social := List.replicate 8 (List.replicate 6 0),
        m_environment := List.replicate 8 (List.replicate 4 0) }
      { npc_id := "unit", intention := [1, 0, 0, 0, 0, 0, 0, 0],
        emotion := zero_vec 8, personality := zero_vec 5,
        social_influence := zero_vec 6, environment := zero_vec 4 }) = 1/25 := by
    have hraw : rawIntention
        { m_personality := List.replicate 8 (List.replicate 5 0),
          m_emotion := List.replicate 8 (List.replicate 8 0),
          m_social := List.replicate 8 (List.replicate 6 0),
          m_environment := List.replicate 8 (List.replicate 4 0) }
        { npc_id := "unit", intention := [1, 0, 0, 0, 0, 0, 0, 0],
          emotion := zero_vec 8, personality := zero_vec 5,
          social_influence := zero_vec 6, environment := zero_vec 4 } =
        [1/5, 0, 0, 0, 0, 0, 0, 0] := by
      unfold rawIntention
      simp only [zero_vec]
      rw [if_neg (by norm_num), if_neg (by norm_num)]
      rw [matVecMul_zero_vec, matVecMul_zero_vec, matVecMul_zero_vec,
        matVecMul_zero_vec]
      simp only [List.length_replicate, scaleVec_zero]
      rw [addVec_zero_zero, addVec_zero_zero, addVec_zero_zero]
      show addVec [0, 0, 0, 0, 0, 0, 0, 0] _ = _
      norm_num [addVec, scaleVec]
    rw [hraw]
    norm_num [l2normSq]
  refine ⟨by rw [hsq]; norm_num, ?_⟩
  exact (intention_norm_unit _ _).1 (by rw [hsq]; norm_num)

/-- C4 counterexample: an NPC whose five vectors are all zero (with full
energy and health, so no vitality bias) has raw intention zero for every
weight matrix; the engine then returns the uniform vector `1/8`, whose
squared L2 norm is `1/8` — its norm `1/(2√2) ≈ 0.354` is not within
`1e-5` of 1, since a norm within `1e-5` of 1 would have squared norm at
least `(1 - 1e-5)^2 > 1/8`. -/
theorem intention_norm_fails_on_zero_npc :
    IntentionEngine.compute
        { m_personality := List.replicate 8 (List.replicate 5 (3/10)),
          m_emotion := List.replicate 8 (List.replicate 8 (3/10)),
          m_social := List.replicate 8 (List.replicate 6 (3/10)),
          m_environment := List.replicate 8 (List.replicate 4 (3/10)) }
        { npc_id := "zero", intention := zero_vec 8, emotion := zero_vec 8,
          personality := zero_vec 5, social_influence := zero_vec 6,
          environment := zero_vec 4 } = List.replicate 8 ((8:ℝ)⁻¹) ∧
      l2normSqR (List.replicate 8 ((8:ℝ)⁻¹)) = 1/8 ∧
      ¬ (((1:ℝ) - 1/100000)^2 ≤ 1/8) := by
  refine ⟨?_, ?_, by norm_num⟩
  · have hraw : rawIntention
        { m_personality := List.replicate 8 (List.replicate 5 (3/10)),
          m_emotion := List.replicate 8 (List.replicate 8 (3/10)),
          m_social := List.replicate 8 (List.replicate 6 (3/10)),
          m_environment := List.replicate 8 (List.replicate 4 (3/10)) }
        { npc_id := "zero", intention := zero_vec 8, emotion := zero_vec 8,
          personality := zero_vec 5, social_influence := zero_vec 6,
          environment := zero_vec 4 } = List.replicate 8 0 := by
      unfold rawIntention
      simp only [zero_vec]
      rw [if_neg (by norm_num), if_neg (by norm_num)]
      rw [matVecMul_zero_vec, matVecMul_zero_vec, matVecMul_zero_vec,
        matVecMul_zero_vec]
      simp only [List.length_replicate, scaleVec_zero]
      rw [addVec_zero_zero, addVec_zero_zero, addVec_zero_zero,
        addVec_zero_zero]
    unfold IntentionEngine.compute normalizeVec
    rw [hraw]
    rw [if_pos (by norm_num [l2normSq, List.map_replicate, List.sum_replicate])]
    simp
  · simp only [l2normSqR, List.map_replicate, List.sum_replicate,
      nsmul_eq_mul]
    norm_num

/-! ### C1, C2: snapshot and restore -/

/-- The `deserialize_npc` never succeeds: it always passes the keyword
`activity`, which is not a field of the `NPCVectorialStatus` dataclass,
so the constructor call raises `TypeError`. -/
theorem deserialize_npc_always_fails (data : SerializedNPC) :
    deserialize_npc data = .error .typeError := by
  unfold deserialize_npc
  rw [if_neg]
  intro h
  have h2 := List.all_eq_true.mp h "activity" (by decide)
  revert h2
  decide

/-- C1 (code bug): the snapshot/restore round trip crashes instead of
reproducing the world.  `serialize_npc` reads the dynamic attribute
`npc.activity`, which no code the manager runs ever assigns, so
`snapshot` raises `AttributeError` on a freshly registered NPC; and
`deserialize_npc` passes the unexpected keyword `activity` to the
`NPCVectorialStatus` dataclass constructor, so `restore` of any
snapshot containing at least one NPC raises `TypeError`.  The source's
own test `test_snapshot_roundtrip` exercises exactly this pair. -/
theorem snapshot_restore_roundtrip_crashes :
    WorldStateManager.snapshot
        { game_time := 42,
          npcs := [{ npc_id := "npc-1", name := "Guard",
                     archetype := "guard" }] } = .error .attributeError ∧
      deserialize_npc
        { npc_id := "npc-1", name := "Guard", archetype := "guard",
          intention := uniform_vec 8, emotion := zero_vec 8,
          personality := uniform_vec 5, social_influence := zero_vec 6,
          environment := zero_vec 4, energy := 1, health := 1,
          importance := 1/2, relationships := [], recent_memories := [],
          location_id := "default", activity := "idle" } =
        .error .typeError ∧
      (WorldStateManager.restore {}
        { game_time := some 42,
          npcs := some [("npc-1",
            { npc_id := "npc-1", name := "Guard", archetype := "guard",
              intention := uniform_vec 8, emotion := zero_vec 8,
              personality := uniform_vec 5, social_influence := zero_vec 6,
              environment := zero_vec 4, energy := 1, health := 1,
              importance := 1/2, relationships := [], recent_memories := [],
              location_id := "default", activity := "idle" })] }).2 =
        some .typeError := by
  refine ⟨rfl, deserialize_npc_always_fails _, ?_⟩
  unfold WorldStateManager.restore
  simp only
  unfold restoreNpcsLoop
  rw [deserialize_npc_always_fails]

/-- C2 counterexample: restoring a snapshot that is missing the required
`npcs` key reports `KeyError`, but the manager is not left in its
pre-call state — the clock has already been replaced (10 became 5) and
the registry has already been cleared. -/
theorem restore_missing_key_partial_mutation :
    (WorldStateManager.restore
        { game_time := 10, npcs := [{ npc_id := "a" }] }
        { game_time := some 5 }).2 = some .keyError ∧
      (WorldStateManager.restore
        { game_time := 10, npcs := [{ npc_id := "a" }] }
        { game_time := some 5 }).1.game_time = 5 ∧
      ({ game_time := 10, npcs := [{ npc_id := "a" }] } :
        WorldStateManager).game_time = 10 ∧
      (WorldStateManager.restore
        { game_time := 10, npcs := [{ npc_id := "a" }] }
        { game_time := some 5 }).1.npcs = [] ∧
      ({ game_time := 10, npcs := [{ npc_id := "a" }] } :
        WorldStateManager).npcs ≠ [] := by
  refine ⟨rfl, rfl, rfl, rfl, by simp⟩

/-- C2 (amended): a failing `restore` reports an error, but does not
leave the manager in its pre-call state in general.  Only a missing
`game_time` key aborts before any mutation; a missing `npcs` key leaves
the clock replaced and the registry cleared; a present, non-empty NPC
map always fails (the per-NPC constructor call raises `TypeError`, and
vector dimensions are never validated), again with the clock replaced
and the registry cleared.  The location graph is never modified by a
failing call. -/
theorem restore_failure_partial_mutation (m : WorldStateManager)
    (d : RestoreData) :
    (d.game_time = none → m.restore d = (m, some .keyError)) ∧
      (∀ t, d.game_time = some t → d.npcs = none →
        m.restore d =
          ({ m with game_time := t, npcs := [] }, some .keyError)) ∧
      (∀ t entries, d.game_time = some t → d.npcs = some entries →
        entries ≠ [] →
        m.restore d =
          ({ m with game_time := t, npcs := [] }, some .typeError)) := by
  refine ⟨?_, ?_, ?_⟩
  · intro h
    unfold WorldStateManager.restore
    rw [h]
  · intro t ht hn
    unfold WorldStateManager.restore
    rw [ht, hn]
  · intro t entries ht he hne
    unfold WorldStateManager.restore
    rw [ht, he]
    cases entries with
    | nil => exact absurd rfl hne
    | cons p rest =>
      rcases p with ⟨k, nd⟩
      simp only []
      unfold restoreNpcsLoop
      rw [deserialize_npc_always_fails]

/-- Witness for `restore_failure_partial_mutation` at concrete inputs:
a missing `npcs` key and a one-NPC snapshot both error with the clock
replaced. -/
theorem restore_failure_partial_mutation_witness :
    (WorldStateManager.restore { game_time := 7 }
        { game_time := some 3 }).2 = some .keyError ∧
      (WorldStateManager.restore { game_time := 7 }
        { game_time := some 3 }).1.game_time = 3 ∧
      (WorldStateManager.restore { game_time := 7 }
        { game_time := some 3,
          npcs := some [("x",
            { npc_id := "x", name := "", archetype := "generic",
              intention := uniform_vec 8, emotion := zero_vec 8,
              personality := uniform_vec 5, social_influence := zero_vec 6,
              environment := zero_vec 4, energy := 1, health := 1,
              importance := 1/2, relationships := [], recent_memories := [],
              location_id := "default", activity := "idle" })] }).2 =
        some .typeError := by
  have h1 := (restore_failure_partial_mutation { game_time := 7 }
    { game_time := some 3 }).2.1 3 rfl rfl
  have h2 := (restore_failure_partial_mutation { game_time := 7 }
    { game_time := some 3,
      npcs := some [("x",
        { npc_id := "x", name := "", archetype := "generic",
          intention := uniform_vec 8, emotion := zero_vec 8,
          personality := uniform_vec 5, social_influence := zero_vec 6,
          environment := zero_vec 4, energy := 1, health := 1,
          importance := 1/2, relationships := [], recent_memories := [],
          location_id := "default", activity := "idle" })] }).2.2 3 _ rfl rfl
    (by simp)
  exact ⟨by rw [h1], by rw [h1], by rw [h2]⟩

/-! ### C8: zero-NPC tick -/

/-- C8 (amended): with zero registered NPCs, `tick(delta_hours)` skips
pipeline stages 3–12 entirely (no oracle-abstracted stage is consulted
and the registry stays empty), returns `npcs_updated`,
`interactions_resolved` and `npcs_moved` all zero, and reports in
`events_delivered` / `events_pending` the due events it still popped
from the queue — which are nonzero when deliveries are pending, so the
counters are all zero only when no event is due. -/
theorem tick_empty_registry (oracle : TickOracles) (m : WorldStateManager)
    (delta_hours : ℚ) (h : m.npcs = []) :
    WorldStateManager.tick oracle m delta_hours =
      ({ m with
          game_time := m.game_time + delta_hours,
          queue := (EventQueue.pop_due m.queue
            (m.game_time + delta_hours)).2 },
        { game_time := m.game_time + delta_hours,
          npcs_updated := 0,
          events_delivered := (EventQueue.pop_due m.queue
            (m.game_time + delta_hours)).1.length,
          events_pending := (EventQueue.pop_due m.queue
            (m.game_time + delta_hours)).2.length,
          interactions_resolved := 0, npcs_moved := 0 }) := by
  unfold WorldStateManager.tick
  rw [h]
  simp [List.isEmpty]

/-- Trivial instantiation of the oracle-abstracted stages, for concrete
tick evaluations. -/
def trivialOracles : TickOracles :=
  { intentionStage := fun npcs => npcs,
    interactionOutcomes := fun _ _ => [],
    movementStage := fun npcs _ _ => (npcs, 0) }

/-- Witness for `tick_empty_registry`: an empty registry with one
pending event at time 0 ticked by one hour. -/
theorem tick_empty_registry_witness :
    (WorldStateManager.tick trivialOracles
        { queue := [((0:ℚ), { event_id := "ev" })] } 1).2.npcs_updated = 0 ∧
      (WorldStateManager.tick trivialOracles
        { queue := [((0:ℚ), { event_id := "ev" })] } 1).2.npcs_moved = 0 := by
  have h := tick_empty_registry trivialOracles
    { queue := [((0:ℚ), { event_id := "ev" })] } 1 rfl
  rw [h]
  exact ⟨rfl, rfl⟩

/-- C8 counterexample: the claim says every counter of the zero-NPC
tick's result is zero, but with a due event pending the popped-event
counter is 1: `events_delivered` counts stage-2 deliveries even when
there is no NPC to receive them. -/
theorem tick_empty_registry_delivers_events :
    ({ queue := [((0:ℚ), { event_id := "ev" })] } :
        WorldStateManager).npcs = [] ∧
      (WorldStateManager.tick trivialOracles
        { queue := [((0:ℚ), { event_id := "ev" })] } 1).2.events_delivered
        = 1 := by
  refine ⟨rfl, ?_⟩
  have hpop : EventQueue.pop_due [((0:ℚ), ({ event_id := "ev" } : WorldEvent))]
      ((0:ℚ) + 1) = ([{ event_id := "ev" }], []) := by
    unfold EventQueue.pop_due
    rw [if_pos (by norm_num)]
    rfl
  unfold WorldStateManager.tick
  simp only []
  rw [hpop]
  simp [List.isEmpty]

/-! ### C7: health-based energy cap after a full tick -/

/-- After `apply_health_energy_cap`, an NPC below the health threshold
has energy at most `health / threshold`. -/
theorem apply_cap_post (eng : VitalityEngine) (z : NPCVectorialStatus)
    (h : (eng.apply_health_energy_cap z).health <
      eng.health_energy_cap_threshold) :
    (eng.apply_health_energy_cap z).energy ≤
      (eng.apply_health_energy_cap z).health /
        eng.health_energy_cap_threshold := by
  unfold VitalityEngine.apply_health_energy_cap at h ⊢
  by_cases hc : z.health < eng.health_energy_cap_threshold
  · rw [if_pos hc] at h ⊢
    exact min_le_right _ _
  · rw [if_neg hc] at h ⊢
    exact absurd h hc

/-- The `update_npc` ends with the health-based energy cap, so its output
satisfies the cap invariant. -/
theorem update_npc_cap (eng : VitalityEngine) (npc : NPCVectorialStatus)
    (h : (eng.update_npc npc).health < eng.health_energy_cap_threshold) :
    (eng.update_npc npc).energy ≤
      (eng.update_npc npc).health / eng.health_energy_cap_threshold := by
  unfold VitalityEngine.update_npc at h ⊢
  exact apply_cap_post eng _ h

/-- C7: after a full twelve-stage tick (with the default vitality
configuration, whose cap threshold is 0.5, and any behaviour of the
oracle-abstracted stages 5, 6 and 9), every NPC in the resulting
registry whose health is below 0.5 has energy at most `health / 0.5`:
stage 11 applies the cap to every NPC and stage 12 does not touch
energy or health. -/
theorem tick_health_energy_cap (oracle : TickOracles)
    (m : WorldStateManager) (delta_hours : ℚ)
    (hcfg : m.vitality_engine = {}) (npc : NPCVectorialStatus)
    (hmem : npc ∈ (WorldStateManager.tick oracle m delta_hours).1.npcs)
    (hh : npc.health < 1/2) :
    npc.energy ≤ npc.health / (1/2) := by
  unfold WorldStateManager.tick at hmem
  simp only [] at hmem
  split at hmem
  · rename_i hemp
    rw [List.isEmpty_iff.mp hemp] at hmem
    exact absurd hmem (List.not_mem_nil npc)
  · simp only [] at hmem
    unfold SocialInfluenceEngine.tick at hmem
    obtain ⟨z, hz, rfl⟩ := List.mem_map.mp hmem
    unfold VitalityEngine.tick at hz
    obtain ⟨x, hx, rfl⟩ := List.mem_map.mp hz
    have hth : m.vitality_engine.health_energy_cap_threshold = 1/2 := by
      rw [hcfg]
    have hcap := update_npc_cap m.vitality_engine x (by rw [hth]; exact hh)
    rw [hth] at hcap
    exact hcap

/-- One-NPC world for the cap witness: zero vectors, full energy, low
health. -/
def npcLowHealth : NPCVectorialStatus :=
  { npc_id := "w", intention := [0, 0, 0, 0, 0, 0, 0, 0],
    emotion := [0, 0, 0, 0, 0, 0, 0, 0], personality := [0, 0, 0, 0, 0],
    social_influence := [0, 0, 0, 0, 0, 0], environment := [0, 0, 0, 0],
    health := 1/5 }

/-- Oracles for the cap witness: identity intention stage, no
interactions, and a movement stage that installs `npcLowHealth`. -/
def capOracles : TickOracles :=
  { intentionStage := fun npcs => npcs,
    interactionOutcomes := fun _ _ => [],
    movementStage := fun _ _ _ => ([npcLowHealth], 0) }

/-- The NPC `npcLowHealth` after tick stages 10–12: environment stage
skips (no location), vitality drains energy to 0.99 then caps it at
`health / 0.5 = 0.388`, health drops to 0.194, social stage rewrites
the social vector (to zero). -/
def npcLowHealthTicked : NPCVectorialStatus :=
  { npc_id := "w", intention := [0, 0, 0, 0, 0, 0, 0, 0],
    emotion := [0, 0, 0, 0, 0, 0, 0, 0], personality := [0, 0, 0, 0, 0],
    social_influence := [0, 0, 0, 0, 0, 0], environment := [0, 0, 0, 0],
    energy := 97/250, health := 97/500 }

/-- Witness for `tick_health_energy_cap`: a concrete tick whose
resulting NPC has health 0.194 < 0.5 and energy 0.388 = health / 0.5. -/
theorem tick_health_energy_cap_witness :
    npcLowHealthTicked ∈
        (WorldStateManager.tick capOracles
          { npcs := [npcLowHealth] } 1).1.npcs ∧
      npcLowHealthTicked.health < 1/2 ∧
      npcLowHealthTicked.energy ≤ npcLowHealthTicked.health / (1/2) := by
  have hz6 : zero_vec SOCIAL_INFLUENCE_DIM = [0, 0, 0, 0, 0, 0] := rfl
  have hmem : npcLowHealthTicked ∈
      (WorldStateManager.tick capOracles
        { npcs := [npcLowHealth] } 1).1.npcs := by
    unfold WorldStateManager.tick
    norm_num [capOracles, npcLowHealth, npcLowHealthTicked,
      EventQueue.pop_due, List.isEmpty, EnvironmentEngine.tick,
      EnvironmentEngine.tickNpc, LocationGraph.get_location, assocGet,
      VitalityEngine.tick, VitalityEngine.update_npc,
      VitalityEngine.compute_energy_regen,
      VitalityEngine.compute_health_change,
      VitalityEngine.apply_health_energy_cap, SocialInfluenceEngine.tick,
      SocialInfluenceEngine.tickNpc,
      SocialInfluenceEngine.compute_peer_signal,
      SocialInfluenceEngine.compute_susceptibility, hz6, clampQ,
      clamp01Vec, addVec, subVec, scaleVec, SOCIAL_BLEND_RATE,
      SOCIAL_DECAY_RATE, min_def, max_def, List.find?]
  refine ⟨hmem, by norm_num [npcLowHealthTicked], ?_⟩
  exact tick_health_energy_cap capOracles { npcs := [npcLowHealth] } 1 rfl
    npcLowHealthTicked hmem (by norm_num [npcLowHealthTicked])

end ASC
